import Mathlib

/-!
Verification of the MLT integrator orchestration layer
(`src/integrators/mlt/mlt.cpp`).

The file shallowly embeds the `MLT` integrator class: its configuration
record (`MLTConfiguration`), the property-driven constructor (`MLT.mk`),
`MLT.preprocess`, `MLT.cancel`, and the orchestration logic of
`MLT.render`.  External collaborators (the scheduler, the nested
first-stage luminance pass, the direct-illumination renderer, the seed
generator) are modelled as oracles collected in a `RenderEnv` record:
`render` consumes their results exactly in the order and under the
conditions of the C++ code, and the returned `RenderResult` records
which phases ran together with the final configuration state.

Numeric conventions: C++ `int` fields become `Int`, `size_t` quantities
become `Nat`, and `Float` values that are only stored and moved around
(never computed with) become `Rat`.  The expression
`std::ceil((cropSize.x * cropSize.y * sampleCount) / 200000.0f)` is
modelled as the exact ceiling division `(total + 199999) / 200000` on
`Nat`, i.e. the real ceiling of `total / 200000`.
-/

/-- Opaque handle for the per-pixel importance map produced by the
two-stage luminance pass.  `mlt.cpp` never inspects its contents; it only
stores the pointer and tests it against `NULL`. -/
structure ImportanceMap where
  id : Nat
deriving DecidableEq

/-- Opaque handle for a rendered bitmap (the direct-illumination image).
`mlt.cpp` only stores the pointer and tests it against `NULL`. -/
structure Bitmap where
  id : Nat
deriving DecidableEq

/-- Opaque handle for a nested render job (`m_nestedJob`). -/
structure RenderJob where
  id : Nat
deriving DecidableEq

/-- The `MLTConfiguration` record (`mlt_proc.h`), restricted to the
fields that `mlt.cpp` reads or writes.  `workUnits` is a C++ `int`,
`nMutations` a `size_t`, `luminance` and `probFactor` are `Float`
values that the orchestration code only stores. -/
structure MLTConfiguration where
  maxDepth : Int
  twoStage : Bool
  firstStageSizeReduction : Int
  firstStage : Bool
  luminanceSamples : Int
  directSamples : Int
  separateDirect : Bool
  workUnits : Int
  bidirectionalMutation : Bool
  lensPerturbation : Bool
  causticPerturbation : Bool
  multiChainPerturbation : Bool
  manifoldPerturbation : Bool
  probFactor : Rat
  timeout : Int
  nMutations : Nat
  luminance : Rat
  importanceMap : Option ImportanceMap
deriving DecidableEq

/-- The subset of the `Properties` map that the `MLT` constructor
queries.  A `none` entry means the property was not specified, so the
constructor's default applies. -/
structure Properties where
  maxDepth : Option Int := none
  twoStage : Option Bool := none
  firstStageSizeReduction : Option Int := none
  firstStage : Option Bool := none
  luminanceSamples : Option Int := none
  directSamples : Option Int := none
  workUnits : Option Int := none
  bidirectionalMutation : Option Bool := none
  lensPerturbation : Option Bool := none
  causticPerturbation : Option Bool := none
  multiChainPerturbation : Option Bool := none
  manifoldPerturbation : Option Bool := none
  probFactor : Option Rat := none
  timeout : Option Int := none
deriving DecidableEq

/-- The `MLT(const Properties&)` constructor: reads each property with
its default and sets `separateDirect = directSamples >= 0`.  The derived
fields `nMutations`, `luminance` and `importanceMap` are not assigned by
the constructor; they start out as zero resp. null. -/
def MLT.mk (props : Properties) : MLTConfiguration :=
  let directSamples := props.directSamples.getD 16
  { maxDepth := props.maxDepth.getD (-1)
    twoStage := props.twoStage.getD false
    firstStageSizeReduction := props.firstStageSizeReduction.getD 16
    firstStage := props.firstStage.getD false
    luminanceSamples := props.luminanceSamples.getD 100000
    directSamples := directSamples
    separateDirect := decide (0 ≤ directSamples)
    workUnits := props.workUnits.getD (-1)
    bidirectionalMutation := props.bidirectionalMutation.getD true
    lensPerturbation := props.lensPerturbation.getD false
    causticPerturbation := props.causticPerturbation.getD false
    multiChainPerturbation := props.multiChainPerturbation.getD false
    manifoldPerturbation := props.manifoldPerturbation.getD false
    probFactor := props.probFactor.getD 50
    timeout := props.timeout.getD 0
    nMutations := 0
    luminance := 0
    importanceMap := none }

/-- `MLT::preprocess`: raises a fatal error (`Log(EError, ...)`, modelled
as `Except.error`) when the scene has subsurface integrators, else when
the sensor's sampler is not an `IndependentSampler`; otherwise returns
`true`. -/
def MLT.preprocess (numSubsurfaceIntegrators : Nat)
    (samplerClassName : String) : Except String Bool :=
  if 0 < numSubsurfaceIntegrators then
    Except.error ("Subsurface integrators are not supported by MLT!")
  else if samplerClassName ≠ "IndependentSampler" then
    Except.error ("Metropolis light transport requires the independent sampler")
  else
    Except.ok true

/-- Cancellation actions of `MLT::cancel`, in the order they are issued. -/
inductive CancelEvent where
  | cancelNested
  | cancelOuter
deriving DecidableEq

/-- `MLT::cancel`: cancel the nested first-stage job when one exists,
then cancel the outer process on the scheduler. -/
def MLT.cancel (nestedJob : Option RenderJob) : List CancelEvent :=
  (match nestedJob with
    | some _ => [CancelEvent.cancelNested]
    | none => []) ++ [CancelEvent.cancelOuter]

/-- Results of the external collaborators consulted by `MLT::render`,
plus the scene/film quantities it reads.  `mltLuminancePass` is indexed
by the size-reduction argument that `render` passes to
`BidirectionalUtils::mltLuminancePass`; `generateSeeds` is indexed by
the boolean third argument of `PathSampler::generateSeeds` and returns
the luminance estimate of that pass. -/
structure RenderEnv where
  cropSizeX : Nat
  cropSizeY : Nat
  sampleCount : Nat
  nCores : Nat
  mltLuminancePass : Int → Option ImportanceMap
  renderDirect : Option Bitmap
  generateSeeds : Bool → Rat
  processStatus : Bool

/-- Observable outcome of one `MLT::render` invocation: the boolean
return value, which phases of the orchestration actually ran, the direct
image composited into the film (if any), and the configuration state at
the end of the call. -/
structure RenderResult where
  assertionFailed : Bool
  returnValue : Bool
  ranFirstStagePass : Bool
  ranDirectPass : Bool
  ranSeedGeneration : Bool
  scheduled : Bool
  directImage : Option Bitmap
  finalConfig : MLTConfiguration
deriving DecidableEq

/-- Total pixel-sample budget `cropSize.x * cropSize.y * sampleCount`. -/
def RenderEnv.total (env : RenderEnv) : Nat :=
  env.cropSizeX * env.cropSizeY * env.sampleCount

/-- Seed generation and process scheduling (`mlt.cpp` lines 189-223):
`m_config.luminance` is assigned the result of the estimate-only
`generateSeeds` call (third argument `false`) and then reassigned the
result of the seed-producing call (third argument `true`); afterwards
the process is scheduled and its return status decides the result. -/
def MLT.renderRest (cfg0 : MLTConfiguration) (env : RenderEnv)
    (directImage : Option Bitmap) (ranDirect : Bool) : RenderResult :=
  { assertionFailed := false
    returnValue := env.processStatus
    ranFirstStagePass := false
    ranDirectPass := ranDirect
    ranSeedGeneration := true
    scheduled := true
    directImage := directImage
    finalConfig :=
      { { cfg0 with luminance := env.generateSeeds false } with
          luminance := env.generateSeeds true } }

/-- The guard of the direct-illumination block (`mlt.cpp` line 182):
`m_config.separateDirect && m_config.directSamples > 0 && !nested`,
where `nested = m_config.twoStage && m_config.firstStage` (line 166). -/
def MLTConfiguration.runDirect (cfg : MLTConfiguration) : Bool :=
  cfg.separateDirect && decide (0 < cfg.directSamples) &&
    !(cfg.twoStage && cfg.firstStage)

/-- The `workUnits` derivation (`mlt.cpp` lines 174-176): when the
configured value is non-positive, `std::ceil(total / 200000.0f)`,
modelled as the exact ceiling of the real division. -/
def MLT.deriveWorkUnits (configured : Int) (total : Nat) : Int :=
  if configured ≤ 0 then Int.ofNat ((total + 199999) / 200000)
  else configured

/-- The direct-illumination block (`mlt.cpp` lines 181-187), followed by
seed generation and scheduling: when the `runDirect` guard holds, the
direct component is rendered and a null result aborts with `false`. -/
def MLT.renderDirectStep (cfg : MLTConfiguration) (env : RenderEnv) : RenderResult :=
  if cfg.runDirect then
    match env.renderDirect with
    | none =>
      { assertionFailed := false
        returnValue := false
        ranFirstStagePass := false
        ranDirectPass := true
        ranSeedGeneration := false
        scheduled := false
        directImage := none
        finalConfig := cfg }
    | some img => MLT.renderRest cfg env (some img) true
  else
    MLT.renderRest cfg env none false

/-- The body of `MLT::render` after the two-stage block (`mlt.cpp` lines
166-223): derive `workUnits` (ceiling of `total / 200000` when the
configured value is non-positive) and `nMutations` (integer quotient of
`total` by `workUnits`), then run the separate direct-illumination pass
when `separateDirect && directSamples > 0 && !nested`, aborting when it
yields no image. -/
def MLT.renderMain (cfg0 : MLTConfiguration) (env : RenderEnv) : RenderResult :=
  MLT.renderDirectStep
    { cfg0 with
        workUnits := MLT.deriveWorkUnits cfg0.workUnits env.total
        nMutations :=
          env.total / (MLT.deriveWorkUnits cfg0.workUnits env.total).toNat }
    env

/-- `MLT::render` (`mlt.cpp` lines 142-224): reset the importance map to
null; when `twoStage && !firstStage`, assert the size reduction is
positive and run the nested first-stage luminance pass, returning
`false` when it produces no importance map; then continue with
`renderMain`. -/
def MLT.render (cfg0 : MLTConfiguration) (env : RenderEnv) : RenderResult :=
  let cfg := { cfg0 with importanceMap := none }
  if cfg.twoStage && !cfg.firstStage then
    if cfg.firstStageSizeReduction ≤ 0 then
      { assertionFailed := true
        returnValue := false
        ranFirstStagePass := false
        ranDirectPass := false
        ranSeedGeneration := false
        scheduled := false
        directImage := none
        finalConfig := cfg }
    else
      match env.mltLuminancePass cfg.firstStageSizeReduction with
      | none =>
        { assertionFailed := false
          returnValue := false
          ranFirstStagePass := true
          ranDirectPass := false
          ranSeedGeneration := false
          scheduled := false
          directImage := none
          finalConfig := cfg }
      | some m =>
        { MLT.renderMain { cfg with importanceMap := some m } env with
            ranFirstStagePass := true }
  else
    MLT.renderMain cfg env

/-- Modelled from the spec: the separate direct-illumination pass (via
`BidirectionalUtils::renderDirectComponent` and the low-discrepancy
sampler it instantiates, neither of which is among the sources here)
rounds a positive `directSamples` value up to the next power of two
before using it as its per-pixel sample count. -/
def roundToPowerOfTwo (n : Nat) : Nat :=
  2 ^ Nat.clog 2 n

/-- Modelled from the spec: the per-pixel sample count actually used by
the separate direct-illumination pass for a configured `directSamples`
value. -/
def directPassSampleCount (directSamples : Int) : Nat :=
  roundToPowerOfTwo directSamples.toNat

/-! Concrete witness inputs.  Each claim gets its own configuration and
environment so the developments stay independent. -/

/-- A luminance oracle for witnesses: estimate-only pass yields 0, the
seed-producing pass yields 1. -/
def genW : Bool → Rat :=
  fun b => if b then 1 else 0

def cfgW1 : MLTConfiguration := MLT.mk {}

def envW1 : RenderEnv :=
  { cropSizeX := 4, cropSizeY := 4, sampleCount := 16, nCores := 2
    mltLuminancePass := fun _ => none, renderDirect := some ⟨0⟩
    generateSeeds := genW, processStatus := true }

def cfgW2 : MLTConfiguration := MLT.mk { directSamples := some (-1) }

def envW2 : RenderEnv :=
  { cropSizeX := 4, cropSizeY := 4, sampleCount := 16, nCores := 2
    mltLuminancePass := fun _ => none, renderDirect := none
    generateSeeds := genW, processStatus := true }

def cfgW3 : MLTConfiguration := MLT.mk {}

def envW3 : RenderEnv :=
  { cropSizeX := 100, cropSizeY := 100, sampleCount := 30, nCores := 2
    mltLuminancePass := fun _ => none, renderDirect := some ⟨0⟩
    generateSeeds := genW, processStatus := true }

def cfgW4 : MLTConfiguration := MLT.mk {}

def envW4 : RenderEnv :=
  { cropSizeX := 100, cropSizeY := 100, sampleCount := 100, nCores := 2
    mltLuminancePass := fun _ => none, renderDirect := some ⟨0⟩
    generateSeeds := genW, processStatus := true }

def cfgW5 : MLTConfiguration := MLT.mk { twoStage := some true }

def envW5 : RenderEnv :=
  { cropSizeX := 4, cropSizeY := 4, sampleCount := 16, nCores := 2
    mltLuminancePass := fun _ => none, renderDirect := some ⟨0⟩
    generateSeeds := genW, processStatus := true }

def propsW6 : Properties := {}

def envW6 : RenderEnv :=
  { cropSizeX := 4, cropSizeY := 4, sampleCount := 16, nCores := 2
    mltLuminancePass := fun _ => none, renderDirect := some ⟨2⟩
    generateSeeds := genW, processStatus := true }

def cfgW10 : MLTConfiguration := MLT.mk { twoStage := some true }

def envW10 : RenderEnv :=
  { cropSizeX := 4, cropSizeY := 4, sampleCount := 16, nCores := 2
    mltLuminancePass := fun _ => some ⟨7⟩, renderDirect := some ⟨1⟩
    generateSeeds := genW, processStatus := true }

/-! Branch characterizations of `MLT.render` and field lemmas for
`MLT.renderMain`. -/

lemma MLT.render_not_firstStagePass (cfg : MLTConfiguration) (env : RenderEnv)
    (h : ¬ (cfg.twoStage && !cfg.firstStage) = true) :
    MLT.render cfg env = MLT.renderMain { cfg with importanceMap := none } env := by
  unfold MLT.render
  simp [h]

lemma MLT.render_assert_abort (cfg : MLTConfiguration) (env : RenderEnv)
    (h : (cfg.twoStage && !cfg.firstStage) = true)
    (hr : cfg.firstStageSizeReduction ≤ 0) :
    MLT.render cfg env =
      { assertionFailed := true, returnValue := false
        ranFirstStagePass := false, ranDirectPass := false
        ranSeedGeneration := false, scheduled := false
        directImage := none
        finalConfig := { cfg with importanceMap := none } } := by
  unfold MLT.render
  simp [h, hr]

lemma MLT.render_firstStage_failed (cfg : MLTConfiguration) (env : RenderEnv)
    (h : (cfg.twoStage && !cfg.firstStage) = true)
    (hr : ¬ cfg.firstStageSizeReduction ≤ 0)
    (hm : env.mltLuminancePass cfg.firstStageSizeReduction = none) :
    MLT.render cfg env =
      { assertionFailed := false, returnValue := false
        ranFirstStagePass := true, ranDirectPass := false
        ranSeedGeneration := false, scheduled := false
        directImage := none
        finalConfig := { cfg with importanceMap := none } } := by
  unfold MLT.render
  simp [h, hr, hm]

lemma MLT.render_firstStage_ok (cfg : MLTConfiguration) (env : RenderEnv)
    (m : ImportanceMap)
    (h : (cfg.twoStage && !cfg.firstStage) = true)
    (hr : ¬ cfg.firstStageSizeReduction ≤ 0)
    (hm : env.mltLuminancePass cfg.firstStageSizeReduction = some m) :
    MLT.render cfg env =
      { MLT.renderMain { cfg with importanceMap := some m } env with
          ranFirstStagePass := true } := by
  unfold MLT.render
  simp [h, hr, hm]

lemma MLT.renderDirectStep_workUnits (cfg : MLTConfiguration) (env : RenderEnv) :
    (MLT.renderDirectStep cfg env).finalConfig.workUnits = cfg.workUnits := by
  unfold MLT.renderDirectStep MLT.renderRest
  repeat' split
  all_goals rfl

lemma MLT.renderDirectStep_nMutations (cfg : MLTConfiguration) (env : RenderEnv) :
    (MLT.renderDirectStep cfg env).finalConfig.nMutations = cfg.nMutations := by
  unfold MLT.renderDirectStep MLT.renderRest
  repeat' split
  all_goals rfl

lemma MLT.renderDirectStep_importanceMap (cfg : MLTConfiguration) (env : RenderEnv) :
    (MLT.renderDirectStep cfg env).finalConfig.importanceMap = cfg.importanceMap := by
  unfold MLT.renderDirectStep MLT.renderRest
  repeat' split
  all_goals rfl

lemma MLT.renderDirectStep_luminance (cfg : MLTConfiguration) (env : RenderEnv) :
    (MLT.renderDirectStep cfg env).scheduled = true →
    (MLT.renderDirectStep cfg env).finalConfig.luminance = env.generateSeeds true := by
  unfold MLT.renderDirectStep MLT.renderRest
  repeat' split
  all_goals intro h
  all_goals first
    | rfl
    | simp at h

lemma MLT.renderDirectStep_ranDirectPass (cfg : MLTConfiguration) (env : RenderEnv) :
    (MLT.renderDirectStep cfg env).ranDirectPass = cfg.runDirect := by
  unfold MLT.renderDirectStep MLT.renderRest
  split
  · split <;> simp_all
  · simp_all

lemma MLT.renderDirectStep_ranFirstStagePass (cfg : MLTConfiguration) (env : RenderEnv) :
    (MLT.renderDirectStep cfg env).ranFirstStagePass = false := by
  unfold MLT.renderDirectStep MLT.renderRest
  repeat' split
  all_goals rfl

lemma MLT.renderMain_eq_step (cfg : MLTConfiguration) (env : RenderEnv) :
    MLT.renderMain cfg env =
      MLT.renderDirectStep
        { cfg with
            workUnits := MLT.deriveWorkUnits cfg.workUnits env.total
            nMutations :=
              env.total / (MLT.deriveWorkUnits cfg.workUnits env.total).toNat }
        env := rfl

lemma MLT.renderMain_workUnits (cfg : MLTConfiguration) (env : RenderEnv) :
    (MLT.renderMain cfg env).finalConfig.workUnits =
      MLT.deriveWorkUnits cfg.workUnits env.total := by
  rw [MLT.renderMain_eq_step, MLT.renderDirectStep_workUnits]

lemma MLT.renderMain_nMutations (cfg : MLTConfiguration) (env : RenderEnv) :
    (MLT.renderMain cfg env).finalConfig.nMutations =
      env.total / (MLT.deriveWorkUnits cfg.workUnits env.total).toNat := by
  rw [MLT.renderMain_eq_step, MLT.renderDirectStep_nMutations]

lemma MLT.renderMain_importanceMap (cfg : MLTConfiguration) (env : RenderEnv) :
    (MLT.renderMain cfg env).finalConfig.importanceMap = cfg.importanceMap := by
  rw [MLT.renderMain_eq_step, MLT.renderDirectStep_importanceMap]

lemma MLT.renderMain_luminance (cfg : MLTConfiguration) (env : RenderEnv) :
    (MLT.renderMain cfg env).scheduled = true →
    (MLT.renderMain cfg env).finalConfig.luminance = env.generateSeeds true := by
  rw [MLT.renderMain_eq_step]
  exact MLT.renderDirectStep_luminance _ env

lemma MLT.renderMain_ranDirectPass (cfg : MLTConfiguration) (env : RenderEnv) :
    (MLT.renderMain cfg env).ranDirectPass = cfg.runDirect := by
  rw [MLT.renderMain_eq_step, MLT.renderDirectStep_ranDirectPass]
  exact rfl

lemma MLT.renderMain_ranFirstStagePass (cfg : MLTConfiguration) (env : RenderEnv) :
    (MLT.renderMain cfg env).ranFirstStagePass = false := by
  rw [MLT.renderMain_eq_step, MLT.renderDirectStep_ranFirstStagePass]

lemma MLT.renderDirectStep_direct_failed (cfg : MLTConfiguration) (env : RenderEnv)
    (hrun : cfg.runDirect = true) (hnone : env.renderDirect = none) :
    MLT.renderDirectStep cfg env =
      { assertionFailed := false, returnValue := false
        ranFirstStagePass := false, ranDirectPass := true
        ranSeedGeneration := false, scheduled := false
        directImage := none, finalConfig := cfg } := by
  unfold MLT.renderDirectStep
  simp [hrun, hnone]

lemma MLT.renderDirectStep_not_run (cfg : MLTConfiguration) (env : RenderEnv)
    (hrun : ¬ cfg.runDirect = true) :
    MLT.renderDirectStep cfg env = MLT.renderRest cfg env none false := by
  unfold MLT.renderDirectStep
  simp [hrun]

lemma MLTConfiguration.runDirect_iff (cfg : MLTConfiguration) :
    cfg.runDirect = true ↔
      (cfg.separateDirect = true ∧ 0 < cfg.directSamples ∧
        ¬(cfg.twoStage = true ∧ cfg.firstStage = true)) := by
  unfold MLTConfiguration.runDirect
  cases h2 : cfg.twoStage <;> cases h1 : cfg.firstStage <;>
    simp [h2, h1, and_assoc]

lemma MLT.mk_separateDirect (props : Properties) :
    (MLT.mk props).separateDirect = decide (0 ≤ (MLT.mk props).directSamples) := rfl

/-- When `render` reaches the main phase (no first-stage abort), its
observable fields agree with those of `renderMain` run on the
configuration whose importance map was set by the first-stage block. -/
lemma MLT.render_reaches_main (cfg : MLTConfiguration) (env : RenderEnv)
    (hok : cfg.twoStage = true → cfg.firstStage = false →
      (0 < cfg.firstStageSizeReduction ∧
        env.mltLuminancePass cfg.firstStageSizeReduction ≠ none)) :
    ∃ im : Option ImportanceMap,
      (MLT.render cfg env).returnValue =
        (MLT.renderMain { cfg with importanceMap := im } env).returnValue ∧
      (MLT.render cfg env).ranDirectPass =
        (MLT.renderMain { cfg with importanceMap := im } env).ranDirectPass ∧
      (MLT.render cfg env).scheduled =
        (MLT.renderMain { cfg with importanceMap := im } env).scheduled ∧
      (MLT.render cfg env).directImage =
        (MLT.renderMain { cfg with importanceMap := im } env).directImage ∧
      (MLT.render cfg env).ranSeedGeneration =
        (MLT.renderMain { cfg with importanceMap := im } env).ranSeedGeneration ∧
      (MLT.render cfg env).finalConfig =
        (MLT.renderMain { cfg with importanceMap := im } env).finalConfig := by
  by_cases hb : (cfg.twoStage && !cfg.firstStage) = true
  · have h2 : cfg.twoStage = true := by
      revert hb
      cases cfg.twoStage <;> simp
    have h1 : cfg.firstStage = false := by
      revert hb
      cases cfg.firstStage <;> simp
    obtain ⟨hr, hpm⟩ := hok h2 h1
    cases hm : env.mltLuminancePass cfg.firstStageSizeReduction with
    | none => exact absurd hm hpm
    | some m =>
      refine ⟨some m, ?_⟩
      rw [MLT.render_firstStage_ok cfg env m hb (by omega) hm]
      exact ⟨rfl, rfl, rfl, rfl, rfl, rfl⟩
  · refine ⟨none, ?_⟩
    rw [MLT.render_not_firstStagePass cfg env hb]
    exact ⟨rfl, rfl, rfl, rfl, rfl, rfl⟩

/-- When `render` has scheduled the Markov-chain process, its final
configuration is the one `renderMain` produced. -/
lemma MLT.render_scheduled_eq_main (cfg : MLTConfiguration) (env : RenderEnv)
    (hsched : (MLT.render cfg env).scheduled = true) :
    ∃ im : Option ImportanceMap,
      (MLT.render cfg env).finalConfig =
        (MLT.renderMain { cfg with importanceMap := im } env).finalConfig ∧
      (MLT.renderMain { cfg with importanceMap := im } env).scheduled = true := by
  by_cases hb : (cfg.twoStage && !cfg.firstStage) = true
  · by_cases hr : cfg.firstStageSizeReduction ≤ 0
    · rw [MLT.render_assert_abort cfg env hb hr] at hsched
      simp at hsched
    · cases hm : env.mltLuminancePass cfg.firstStageSizeReduction with
      | none =>
        rw [MLT.render_firstStage_failed cfg env hb hr hm] at hsched
        simp at hsched
      | some m =>
        rw [MLT.render_firstStage_ok cfg env m hb hr hm] at hsched ⊢
        exact ⟨some m, rfl, hsched⟩
  · rw [MLT.render_not_firstStagePass cfg env hb] at hsched ⊢
    exact ⟨none, rfl, hsched⟩

lemma ceilDiv_200000_pos {t : Nat} (ht : 0 < t) : 0 < (t + 199999) / 200000 := by
  have h : 200000 ≤ t + 199999 := by omega
  exact (Nat.one_le_div_iff (by norm_num)).mpr h

lemma div_partition_bounds (t wu : Nat) (hwu : 0 < wu) :
    wu * (t / wu) ≤ t ∧ t - wu * (t / wu) < wu := by
  have h1 := Nat.div_add_mod t wu
  have h2 := Nat.mod_lt t hwu
  omega

/-- C1: for every configuration, after `render()` computes the derived
fields, the work-unit count is positive, `nMutations` is the integer
quotient of `cropWidth * cropHeight * samplesPerPixel` by `workUnits`,
the shortfall `workUnits * nMutations - total` is never positive (no
sample is duplicated), and its magnitude is strictly less than
`workUnits`. -/
theorem mlt_mutation_budget_partition (cfg : MLTConfiguration) (env : RenderEnv)
    (htotal : 0 < env.total)
    (hsched : (MLT.render cfg env).scheduled = true) :
    0 < (MLT.render cfg env).finalConfig.workUnits ∧
    (MLT.render cfg env).finalConfig.nMutations =
      env.total / (MLT.render cfg env).finalConfig.workUnits.toNat ∧
    (MLT.render cfg env).finalConfig.workUnits.toNat *
        (MLT.render cfg env).finalConfig.nMutations ≤ env.total ∧
    env.total -
        (MLT.render cfg env).finalConfig.workUnits.toNat *
          (MLT.render cfg env).finalConfig.nMutations <
      (MLT.render cfg env).finalConfig.workUnits.toNat := by
  obtain ⟨im, hfc, -⟩ := MLT.render_scheduled_eq_main cfg env hsched
  rw [hfc, MLT.renderMain_workUnits, MLT.renderMain_nMutations]
  have hproj :
      ({ cfg with importanceMap := im } : MLTConfiguration).workUnits =
        cfg.workUnits := rfl
  rw [hproj]
  have hwupos : 0 < MLT.deriveWorkUnits cfg.workUnits env.total := by
    unfold MLT.deriveWorkUnits
    split
    · exact Int.natCast_pos.mpr (ceilDiv_200000_pos htotal)
    · omega
  have htn : 0 < (MLT.deriveWorkUnits cfg.workUnits env.total).toNat := by omega
  obtain ⟨hle, hlt⟩ :=
    div_partition_bounds env.total
      (MLT.deriveWorkUnits cfg.workUnits env.total).toNat htn
  exact ⟨hwupos, rfl, hle, hlt⟩

/-- C1 witness: the theorem applied at a default configuration on a
4 x 4 crop with 16 samples per pixel. -/
theorem mlt_mutation_budget_partition_witness :
    0 < envW1.total ∧ (MLT.render cfgW1 envW1).scheduled = true ∧
    (0 < (MLT.render cfgW1 envW1).finalConfig.workUnits ∧
     (MLT.render cfgW1 envW1).finalConfig.nMutations =
       envW1.total / (MLT.render cfgW1 envW1).finalConfig.workUnits.toNat ∧
     (MLT.render cfgW1 envW1).finalConfig.workUnits.toNat *
         (MLT.render cfgW1 envW1).finalConfig.nMutations ≤ envW1.total ∧
     envW1.total -
         (MLT.render cfgW1 envW1).finalConfig.workUnits.toNat *
           (MLT.render cfgW1 envW1).finalConfig.nMutations <
       (MLT.render cfgW1 envW1).finalConfig.workUnits.toNat) :=
  ⟨by decide, by decide,
    mlt_mutation_budget_partition cfgW1 envW1 (by decide) (by decide)⟩

/-- C2 counterexample: with an estimate-only pass returning 0 and a
seed-selection pass returning 1, the stored mean-luminance scalar is 1,
not the first pass's 0 — the second `generateSeeds` call overwrites
`m_config.luminance`. -/
theorem mlt_luminance_not_from_estimate_pass :
    (MLT.render cfgW2 envW2).scheduled = true ∧
    envW2.generateSeeds false = 0 ∧
    envW2.generateSeeds true = 1 ∧
    ¬((MLT.render cfgW2 envW2).finalConfig.luminance =
        envW2.generateSeeds false) := by
  exact ⟨by decide, by decide, by decide, by decide⟩

/-- C2 (amended): the mean-luminance scalar stored in the configuration
when the Markov-chain process is scheduled is the one returned by the
second, seed-producing `generateSeeds` pass (flag = produce seeds),
which overwrites the estimate-only pass's value. -/
theorem mlt_luminance_from_selection_pass (cfg : MLTConfiguration)
    (env : RenderEnv)
    (hsched : (MLT.render cfg env).scheduled = true) :
    (MLT.render cfg env).finalConfig.luminance = env.generateSeeds true := by
  obtain ⟨im, hfc, hms⟩ := MLT.render_scheduled_eq_main cfg env hsched
  rw [hfc]
  exact MLT.renderMain_luminance _ env hms

/-- C2 witness: the amended theorem applied at a configuration with
direct separation disabled. -/
theorem mlt_luminance_from_selection_pass_witness :
    (MLT.render cfgW2 envW2).scheduled = true ∧
    (MLT.render cfgW2 envW2).finalConfig.luminance =
      envW2.generateSeeds true :=
  ⟨by decide, mlt_luminance_from_selection_pass cfgW2 envW2 (by decide)⟩

/-- C3: when the configured `workUnits` is non-positive, `render()`
derives `workUnits = ceil(total / 200000)` (the third and fourth
conjuncts pin the derived value to the ceiling of the real division)
and `nMutations = total / workUnits`, with
`total = cropWidth * cropHeight * samplesPerPixel`. -/
theorem mlt_workunit_autoderivation (cfg : MLTConfiguration) (env : RenderEnv)
    (hcw : cfg.workUnits ≤ 0)
    (hsched : (MLT.render cfg env).scheduled = true) :
    (MLT.render cfg env).finalConfig.workUnits =
      Int.ofNat ((env.total + 199999) / 200000) ∧
    (MLT.render cfg env).finalConfig.nMutations =
      env.total / ((env.total + 199999) / 200000) ∧
    env.total ≤ (MLT.render cfg env).finalConfig.workUnits.toNat * 200000 ∧
    (MLT.render cfg env).finalConfig.workUnits.toNat * 200000 <
      env.total + 200000 := by
  obtain ⟨im, hfc, -⟩ := MLT.render_scheduled_eq_main cfg env hsched
  rw [hfc, MLT.renderMain_workUnits, MLT.renderMain_nMutations]
  have hproj :
      ({ cfg with importanceMap := im } : MLTConfiguration).workUnits =
        cfg.workUnits := rfl
  rw [hproj]
  unfold MLT.deriveWorkUnits
  rw [if_pos hcw]
  have ht : (Int.ofNat ((env.total + 199999) / 200000)).toNat =
      (env.total + 199999) / 200000 := rfl
  refine ⟨rfl, by rw [ht], ?_, ?_⟩ <;> rw [ht] <;> omega

/-- C3 witness: on a 100 x 100 crop with 30 samples per pixel the total
is 300000, so two work units of 150000 mutations each are derived. -/
theorem mlt_workunit_autoderivation_witness :
    cfgW3.workUnits ≤ 0 ∧ (MLT.render cfgW3 envW3).scheduled = true ∧
    ((MLT.render cfgW3 envW3).finalConfig.workUnits =
       Int.ofNat ((envW3.total + 199999) / 200000) ∧
     (MLT.render cfgW3 envW3).finalConfig.nMutations =
       envW3.total / ((envW3.total + 199999) / 200000) ∧
     envW3.total ≤ (MLT.render cfgW3 envW3).finalConfig.workUnits.toNat * 200000 ∧
     (MLT.render cfgW3 envW3).finalConfig.workUnits.toNat * 200000 <
       envW3.total + 200000) :=
  ⟨by decide, by decide,
    mlt_workunit_autoderivation cfgW3 envW3 (by decide) (by decide)⟩

/-- C4 counterexample: on a 100 x 100 crop with 100 samples per pixel
and 2 cores, the auto-derived work-unit count is
`ceil(1000000 / 200000) = 5`, not `4 * 2 = 8`. -/
theorem mlt_workunits_not_four_times_cores :
    cfgW4.workUnits ≤ 0 ∧
    (MLT.render cfgW4 envW4).scheduled = true ∧
    ¬((MLT.render cfgW4 envW4).finalConfig.workUnits =
        4 * (envW4.nCores : Int)) := by
  exact ⟨by decide, by decide, by decide⟩

/-- C4 (amended): when the requested work-unit count is non-positive,
the derived number of work units is `ceil(total / 200000)`; it does not
depend on the number of available worker cores at all (the render result
is unchanged under any core count). -/
theorem mlt_workunits_derived_ignores_cores (cfg : MLTConfiguration)
    (env : RenderEnv) (c : Nat)
    (hcw : cfg.workUnits ≤ 0)
    (hsched : (MLT.render cfg env).scheduled = true) :
    MLT.render cfg { env with nCores := c } = MLT.render cfg env ∧
    (MLT.render cfg env).finalConfig.workUnits =
      Int.ofNat ((env.total + 199999) / 200000) := by
  refine ⟨rfl, ?_⟩
  obtain ⟨im, hfc, -⟩ := MLT.render_scheduled_eq_main cfg env hsched
  rw [hfc, MLT.renderMain_workUnits]
  have hproj :
      ({ cfg with importanceMap := im } : MLTConfiguration).workUnits =
        cfg.workUnits := rfl
  rw [hproj]
  unfold MLT.deriveWorkUnits
  rw [if_pos hcw]

/-- C4 witness: the amended theorem applied on a 100 x 100 crop with 100
samples per pixel, replacing the core count by 7. -/
theorem mlt_workunits_derived_ignores_cores_witness :
    cfgW4.workUnits ≤ 0 ∧ (MLT.render cfgW4 envW4).scheduled = true ∧
    (MLT.render cfgW4 { envW4 with nCores := 7 } = MLT.render cfgW4 envW4 ∧
     (MLT.render cfgW4 envW4).finalConfig.workUnits =
       Int.ofNat ((envW4.total + 199999) / 200000)) :=
  ⟨by decide, by decide,
    mlt_workunits_derived_ignores_cores cfgW4 envW4 7 (by decide) (by decide)⟩

lemma MLT.renderMain_direct_failed (cfg : MLTConfiguration) (env : RenderEnv)
    (hrun : cfg.runDirect = true) (hnone : env.renderDirect = none) :
    (MLT.renderMain cfg env).returnValue = false ∧
    (MLT.renderMain cfg env).scheduled = false ∧
    (MLT.renderMain cfg env).ranSeedGeneration = false := by
  have hrun2 :
      MLTConfiguration.runDirect
        { cfg with
            workUnits := MLT.deriveWorkUnits cfg.workUnits env.total
            nMutations :=
              env.total /
                (MLT.deriveWorkUnits cfg.workUnits env.total).toNat } = true := hrun
  rw [MLT.renderMain_eq_step, MLT.renderDirectStep_direct_failed _ env hrun2 hnone]
  exact ⟨rfl, rfl, rfl⟩

lemma MLT.renderMain_not_run (cfg : MLTConfiguration) (env : RenderEnv)
    (hrun : ¬ cfg.runDirect = true) :
    (MLT.renderMain cfg env).directImage = none ∧
    (MLT.renderMain cfg env).ranDirectPass = false := by
  have hrun2 :
      ¬ MLTConfiguration.runDirect
        { cfg with
            workUnits := MLT.deriveWorkUnits cfg.workUnits env.total
            nMutations :=
              env.total /
                (MLT.deriveWorkUnits cfg.workUnits env.total).toNat } = true := hrun
  rw [MLT.renderMain_eq_step, MLT.renderDirectStep_not_run _ env hrun2]
  exact ⟨rfl, rfl⟩

/-- C5: when `twoStage` is enabled and `firstStage` is false, `render()`
consults the nested reduced-resolution luminance pass at the configured
`firstStageSizeReduction`; when that pass returns no importance map the
render returns `false` without running seed generation, the direct pass,
or scheduling the mutation phase. -/
theorem mlt_first_stage_failure_aborts (cfg : MLTConfiguration) (env : RenderEnv)
    (h2 : cfg.twoStage = true) (h1 : cfg.firstStage = false)
    (hr : 0 < cfg.firstStageSizeReduction)
    (hfail : env.mltLuminancePass cfg.firstStageSizeReduction = none) :
    (MLT.render cfg env).returnValue = false ∧
    (MLT.render cfg env).ranFirstStagePass = true ∧
    (MLT.render cfg env).ranSeedGeneration = false ∧
    (MLT.render cfg env).ranDirectPass = false ∧
    (MLT.render cfg env).scheduled = false := by
  have hb : (cfg.twoStage && !cfg.firstStage) = true := by simp [h2, h1]
  rw [MLT.render_firstStage_failed cfg env hb (by omega) hfail]
  exact ⟨rfl, rfl, rfl, rfl, rfl⟩

/-- C5 witness: a two-stage configuration whose nested luminance pass
yields no importance map. -/
theorem mlt_first_stage_failure_aborts_witness :
    (MLT.render cfgW5 envW5).returnValue = false ∧
    (MLT.render cfgW5 envW5).ranFirstStagePass = true ∧
    (MLT.render cfgW5 envW5).ranSeedGeneration = false ∧
    (MLT.render cfgW5 envW5).ranDirectPass = false ∧
    (MLT.render cfgW5 envW5).scheduled = false :=
  mlt_first_stage_failure_aborts cfgW5 envW5 (by decide) (by decide)
    (by decide) (by decide)

/-- C6: the separate direct-illumination image is rendered iff direct
separation is enabled (`separateDirect`, i.e. `directSamples >= 0` at
construction), `directSamples` is strictly positive, and the run is not
the nested first stage; if it is rendered and yields no image the render
returns `false` without scheduling; with negative `directSamples` no
direct layer is produced at all. -/
theorem mlt_direct_pass_gating (props : Properties) (env : RenderEnv)
    (hok : (MLT.mk props).twoStage = true → (MLT.mk props).firstStage = false →
      (0 < (MLT.mk props).firstStageSizeReduction ∧
        env.mltLuminancePass (MLT.mk props).firstStageSizeReduction ≠ none)) :
    ((MLT.render (MLT.mk props) env).ranDirectPass = true ↔
      ((MLT.mk props).separateDirect = true ∧
        0 < (MLT.mk props).directSamples ∧
        ¬((MLT.mk props).twoStage = true ∧ (MLT.mk props).firstStage = true))) ∧
    ((MLT.render (MLT.mk props) env).ranDirectPass = true →
      env.renderDirect = none →
        (MLT.render (MLT.mk props) env).returnValue = false ∧
        (MLT.render (MLT.mk props) env).scheduled = false ∧
        (MLT.render (MLT.mk props) env).ranSeedGeneration = false) ∧
    ((MLT.mk props).directSamples < 0 →
      (MLT.render (MLT.mk props) env).directImage = none ∧
      (MLT.render (MLT.mk props) env).ranDirectPass = false) := by
  obtain ⟨im, hret, hran, hsch, himg, hseed, -⟩ :=
    MLT.render_reaches_main (MLT.mk props) env hok
  refine ⟨?_, ?_, ?_⟩
  · rw [hran, MLT.renderMain_ranDirectPass]
    exact MLTConfiguration.runDirect_iff _
  · intro hd hnone
    rw [hran, MLT.renderMain_ranDirectPass] at hd
    rw [hret, hsch, hseed]
    exact MLT.renderMain_direct_failed _ env hd hnone
  · intro hneg
    have hsep : (MLT.mk props).separateDirect = false := by
      rw [MLT.mk_separateDirect]
      simp only [decide_eq_false_iff_not]
      omega
    have hrun :
        ¬ MLTConfiguration.runDirect
            ({ MLT.mk props with importanceMap := im }) = true := by
      rw [MLTConfiguration.runDirect_iff]
      rintro ⟨hs, -, -⟩
      simp only at hs
      rw [hsep] at hs
      exact Bool.false_ne_true hs
    rw [himg, hran]
    exact MLT.renderMain_not_run _ env hrun

/-- C6 witness: with default properties (directSamples = 16, twoStage
off) the direct pass runs; its gating condition holds. -/
theorem mlt_direct_pass_gating_witness :
    (MLT.render (MLT.mk propsW6) envW6).ranDirectPass = true :=
  ((mlt_direct_pass_gating propsW6 envW6 (by decide)).1).mpr (by decide)

/-- C7: `preprocess` raises a fatal error iff the scene has at least one
subsurface-scattering integrator or the sensor's sampler class is not
the independent sampler; otherwise it returns `true`. -/
theorem mlt_preprocess_fatal_iff (n : Nat) (s : String) :
    ((∃ e, MLT.preprocess n s = Except.error e) ↔
      (0 < n ∨ s ≠ "IndependentSampler")) ∧
    (¬(0 < n ∨ s ≠ "IndependentSampler") →
      MLT.preprocess n s = Except.ok true) := by
  unfold MLT.preprocess
  by_cases hn : 0 < n
  · simp [hn]
  · by_cases hs : s = "IndependentSampler" <;> simp [hn, hs]

/-- C7 witness: no subsurface integrators and an independent sampler
make `preprocess` succeed. -/
theorem mlt_preprocess_fatal_iff_witness :
    MLT.preprocess 0 "IndependentSampler" = Except.ok true :=
  (mlt_preprocess_fatal_iff 0 "IndependentSampler").2 (by simp)

/-- C8: every positive configured `directSamples` value is rounded up to
the next power of two before being used as the direct pass's sample
count: the used count is a power of two, at least `directSamples`,
minimal among powers of two with that property, and a value that is
already a power of two is kept unchanged. -/
theorem mlt_direct_samples_rounded (ds : Int) (_hpos : 0 < ds) :
    (∃ k, directPassSampleCount ds = 2 ^ k) ∧
    ds.toNat ≤ directPassSampleCount ds ∧
    (∀ m, ds.toNat ≤ 2 ^ m → directPassSampleCount ds ≤ 2 ^ m) ∧
    ((∃ k, ds.toNat = 2 ^ k) → directPassSampleCount ds = ds.toNat) := by
  unfold directPassSampleCount roundToPowerOfTwo
  refine ⟨⟨Nat.clog 2 ds.toNat, rfl⟩, Nat.le_pow_clog (by norm_num) _, ?_, ?_⟩
  · intro m hm
    exact Nat.pow_le_pow_right (by norm_num)
      ((Nat.le_pow_iff_clog_le (by norm_num)).mp hm)
  · rintro ⟨k, hk⟩
    rw [hk, Nat.clog_pow 2 k (by norm_num)]

/-- C8 witness: the theorem applied at `directSamples = 5`. -/
theorem mlt_direct_samples_rounded_witness :
    (0 : Int) < 5 ∧ (5 : Int).toNat ≤ directPassSampleCount 5 :=
  ⟨by decide, (mlt_direct_samples_rounded 5 (by decide)).2.1⟩

/-- C9: `cancel()` always ends by cancelling the outer work-unit
process; the nested job is cancelled iff one exists, and in that case
the nested cancellation strictly precedes the outer one; with no nested
job only the outer process is cancelled and the call still completes. -/
theorem mlt_cancel_order (j : Option RenderJob) :
    (MLT.cancel j).getLast? = some CancelEvent.cancelOuter ∧
    (CancelEvent.cancelNested ∈ MLT.cancel j ↔ j.isSome = true) ∧
    (j.isSome = true →
      MLT.cancel j = [CancelEvent.cancelNested, CancelEvent.cancelOuter]) ∧
    (j.isSome = false → MLT.cancel j = [CancelEvent.cancelOuter]) := by
  cases j <;> simp [MLT.cancel]

/-- C9 witness: the theorem applied with and without a nested job. -/
theorem mlt_cancel_order_witness :
    MLT.cancel (some ⟨3⟩) =
      [CancelEvent.cancelNested, CancelEvent.cancelOuter] ∧
    MLT.cancel none = [CancelEvent.cancelOuter] :=
  ⟨(mlt_cancel_order (some ⟨3⟩)).2.2.1 rfl, (mlt_cancel_order none).2.2.2 rfl⟩

/-- C10: `render()` behaves as if the incoming importance map were null
(it is reset at the start of every invocation), and at the point the
Markov-chain process is scheduled the configuration's importance map is
`some m` exactly when `twoStage` is on, `firstStage` is off and the
nested luminance pass of this invocation returned `m`; in particular a
nested first-stage run is scheduled with a null importance map. -/
theorem mlt_importance_map_lifecycle (cfg : MLTConfiguration) (env : RenderEnv) :
    MLT.render cfg env = MLT.render { cfg with importanceMap := none } env ∧
    ((MLT.render cfg env).scheduled = true →
      ∀ m : ImportanceMap,
        ((MLT.render cfg env).finalConfig.importanceMap = some m ↔
          (cfg.twoStage = true ∧ cfg.firstStage = false ∧
            env.mltLuminancePass cfg.firstStageSizeReduction = some m))) := by
  refine ⟨rfl, ?_⟩
  intro hsched m
  by_cases hb : (cfg.twoStage && !cfg.firstStage) = true
  · have h2 : cfg.twoStage = true := by
      revert hb
      cases cfg.twoStage <;> simp
    have h1 : cfg.firstStage = false := by
      revert hb
      cases cfg.firstStage <;> simp
    by_cases hr : cfg.firstStageSizeReduction ≤ 0
    · rw [MLT.render_assert_abort cfg env hb hr] at hsched
      simp at hsched
    · cases hm : env.mltLuminancePass cfg.firstStageSizeReduction with
      | none =>
        rw [MLT.render_firstStage_failed cfg env hb hr hm] at hsched
        simp at hsched
      | some m0 =>
        rw [MLT.render_firstStage_ok cfg env m0 hb hr hm]
        have hmap :
            ({ MLT.renderMain { cfg with importanceMap := some m0 } env with
                ranFirstStagePass := true }).finalConfig.importanceMap =
              some m0 :=
          MLT.renderMain_importanceMap { cfg with importanceMap := some m0 } env
        rw [hmap]
        constructor
        · intro h
          exact ⟨h2, h1, h⟩
        · rintro ⟨-, -, h⟩
          exact h
  · rw [MLT.render_not_firstStagePass cfg env hb, MLT.renderMain_importanceMap]
    constructor
    · intro h
      simp at h
    · rintro ⟨h2, h1, -⟩
      exact absurd (by simp [h2, h1]) hb

/-- C10 witness: a successful two-stage run schedules with exactly the
importance map produced by the nested pass. -/
theorem mlt_importance_map_lifecycle_witness :
    (MLT.render cfgW10 envW10).finalConfig.importanceMap = some ⟨7⟩ :=
  ((mlt_importance_map_lifecycle cfgW10 envW10).2 (by decide) ⟨7⟩).mpr
    ⟨by decide, by decide, by decide⟩
